import Mathlib

/-
Verification of the environments module_: the `UpdateEnvironment` use-case
(`src/apps/api/src/app/environments/usecases/update-environment/update-environment.usecase.ts`)
and the `EnvironmentsController` handlers
(`src/apps/api/src/app/environments/environments.controller.ts`),
shallowly embedded in Lean.
-/

/-- A Mongo-style document: an ordered list of string key / string value pairs.
Models the plain JS objects (`updatePayload`, the update filter) built by the
use-case. -/
abbrev Doc : Type := List (String × String)

/-- Whether a document contains the given key. -/
def Doc.hasKey (d : Doc) (k : String) : Bool :=
  d.any fun kv => kv.fst == k

/-- JS truthiness of an optional string field: `undefined` (modelled `none`)
and the empty string are falsy, every other string is truthy. Models the bare
`command.name` / `command.identifier` / `command._parentId` tests. -/
def jsTruthy : Option String → Bool
  | none => false
  | some s => !(s == "")

/-- The JS comparison `x !== ''` on an optional string field: it is `true`
when the field is `undefined` (since `undefined !== ''`) and exactly when the
string differs from `""` otherwise. Models the `command.name !== ''` tests. -/
def jsNeEmpty : Option String → Bool
  | none => true
  | some s => !(s == "")

/-- `UpdateEnvironmentCommand`: environment id, organization id, acting user
id, and the optional `name` / `identifier` / `_parentId` fields used by
`UpdateEnvironment.execute`. -/
structure UpdateEnvironmentCommand where
  _id : String
  organizationId : String
  userId : String
  name : Option String
  identifier : Option String
  _parentId : Option String
deriving DecidableEq

/-- The `updatePayload` object built by `UpdateEnvironment.execute`
(update-environment.usecase.ts lines 11-22): `name` is added when
`command.name && command.name !== ''`, `_parentId` when
`command._parentId && command.name !== ''`, and `identifier` when
`command.identifier && command.name !== ''`, in that order. -/
def updatePayload (c : UpdateEnvironmentCommand) : Doc :=
  (if jsTruthy c.name && jsNeEmpty c.name then [("name", c.name.getD "")] else [])
    ++ (if jsTruthy c._parentId && jsNeEmpty c.name then [("_parentId", c._parentId.getD "")] else [])
    ++ (if jsTruthy c.identifier && jsNeEmpty c.name then [("identifier", c.identifier.getD "")] else [])

/-- The second argument of `environmentRepository.update`: a `{ $set: ... }`
update document; the field `set` holds the `$set` payload. -/
structure UpdateQuery where
  set : Doc
deriving DecidableEq

/-- A program interacting with the environment repository: it either returns
a value, or performs one `update(filter, query)` call and continues with the
store's success value (a rejected promise aborts the program). -/
inductive RepoProg (ε ρ α : Type) where
  | pure (a : α)
  | updateOp (filter : Doc) (query : UpdateQuery) (k : ρ → RepoProg ε ρ α)

/-- Runs a `RepoProg` against a store implementation, returning the result
(with store errors propagated unchanged, as `await` re-throws a rejection)
together with the list of `update` calls issued, in order. -/
def runRepo {ε ρ α : Type} (store : Doc → UpdateQuery → Except ε ρ) :
    RepoProg ε ρ α → Except ε α × List (Doc × UpdateQuery)
  | .pure a => (Except.ok a, [])
  | .updateOp f u k =>
    match store f u with
    | .error e => (Except.error e, [(f, u)])
    | .ok r =>
      let rest := runRepo store (k r)
      (rest.1, (f, u) :: rest.2)

/-- `UpdateEnvironment.execute` (update-environment.usecase.ts lines 10-30):
builds `updatePayload` from the command and returns the result of the single
call `environmentRepository.update({ _id: command._id }, { $set: updatePayload })`. -/
def UpdateEnvironment.execute {ε ρ : Type} (c : UpdateEnvironmentCommand) :
    RepoProg ε ρ ρ :=
  .updateOp [("_id", c._id)] ⟨updatePayload c⟩ .pure

/-- The authenticated session (`IJwtPayload`): subject id, organization id,
current environment id — the three fields the controller reads. -/
structure IJwtPayload where
  _id : String
  organizationId : String
  environmentId : String
deriving DecidableEq

/-- `GetApiKeysCommand`: user id, organization id, environment id. -/
structure GetApiKeysCommand where
  userId : String
  organizationId : String
  environmentId : String
deriving DecidableEq

/-- The command built by `EnvironmentsController.getOrganizationApiKeys`
(environments.controller.ts lines 157-164). -/
def EnvironmentsController.getOrganizationApiKeysCommand (user : IJwtPayload) :
    GetApiKeysCommand :=
  { userId := user._id
    organizationId := user.organizationId
    environmentId := user.environmentId }

/-- `EnvironmentsController.getOrganizationApiKeys`: builds the command from
the session and invokes the get-api-keys use-case with it. -/
def EnvironmentsController.getOrganizationApiKeys {ρ : Type}
    (usecase : GetApiKeysCommand → ρ) (user : IJwtPayload) : ρ :=
  usecase (EnvironmentsController.getOrganizationApiKeysCommand user)

/-- The command built by `EnvironmentsController.regenerateOrganizationApiKeys`
(environments.controller.ts lines 175-182): also a `GetApiKeysCommand` from
the session's userId, organizationId and environmentId. -/
def EnvironmentsController.regenerateOrganizationApiKeysCommand (user : IJwtPayload) :
    GetApiKeysCommand :=
  { userId := user._id
    organizationId := user.organizationId
    environmentId := user.environmentId }

/-- `EnvironmentsController.regenerateOrganizationApiKeys`: builds the command
from the session and invokes the regenerate-api-keys use-case with it. -/
def EnvironmentsController.regenerateOrganizationApiKeys {ρ : Type}
    (usecase : GetApiKeysCommand → ρ) (user : IJwtPayload) : ρ :=
  usecase (EnvironmentsController.regenerateOrganizationApiKeysCommand user)

/-- `UpdateEnvironmentRequestDto`: the PUT /:envId body with optional `name`,
`identifier` and `parentId`. -/
structure UpdateEnvironmentRequestDto where
  name : Option String
  identifier : Option String
  parentId : Option String
deriving DecidableEq

/-- The command built by `EnvironmentsController.updateMyEnvironment`
(environments.controller.ts lines 114-129): `_id` from the `envId` path
parameter, `organizationId`/`userId` from the session, `name`/`identifier`
from the body, and `_parentId` from the body's `parentId`. -/
def EnvironmentsController.updateMyEnvironmentCommand (user : IJwtPayload)
    (envId : String) (payload : UpdateEnvironmentRequestDto) :
    UpdateEnvironmentCommand :=
  { _id := envId
    organizationId := user.organizationId
    userId := user._id
    name := payload.name
    identifier := payload.identifier
    _parentId := payload.parentId }

/-- `EnvironmentsController.updateMyEnvironment`: builds the command and
invokes the update-environment use-case with it, returning its result. -/
def EnvironmentsController.updateMyEnvironment {ρ : Type}
    (usecase : UpdateEnvironmentCommand → ρ) (user : IJwtPayload)
    (envId : String) (payload : UpdateEnvironmentRequestDto) : ρ :=
  usecase (EnvironmentsController.updateMyEnvironmentCommand user envId payload)

/-- `UpdateWidgetSettingsRequestDto`: the PUT /widget/settings body carrying
the notification-center encryption flag. -/
structure UpdateWidgetSettingsRequestDto where
  notificationCenterEncryption : Bool
deriving DecidableEq

/-- `UpdateWidgetSettingsCommand`: organization id and environment id (from
the session) plus the notification-center encryption flag. -/
structure UpdateWidgetSettingsCommand where
  organizationId : String
  environmentId : String
  notificationCenterEncryption : Bool
deriving DecidableEq

/-- The command built by `EnvironmentsController.updateWidgetSettings`
(environments.controller.ts lines 193-203): organizationId and environmentId
from the session, the encryption flag from the body. -/
def EnvironmentsController.updateWidgetSettingsCommand (user : IJwtPayload)
    (body : UpdateWidgetSettingsRequestDto) : UpdateWidgetSettingsCommand :=
  { organizationId := user.organizationId
    environmentId := user.environmentId
    notificationCenterEncryption := body.notificationCenterEncryption }

/-- `EnvironmentsController.updateWidgetSettings`: builds the command and
invokes the update-widget-settings use-case with it, returning its result. -/
def EnvironmentsController.updateWidgetSettings {ρ : Type}
    (usecase : UpdateWidgetSettingsCommand → ρ) (user : IJwtPayload)
    (body : UpdateWidgetSettingsRequestDto) : ρ :=
  usecase (EnvironmentsController.updateWidgetSettingsCommand user body)

/-- Key membership of the update payload, resolved per field: `name` is
present exactly when its own guard holds, while `_parentId` and `identifier`
are additionally gated on `command.name !== ''`. -/
theorem updatePayload_hasKey (c : UpdateEnvironmentCommand) (k : String) :
    (updatePayload c).hasKey k =
      ((jsTruthy c.name && jsNeEmpty c.name) && ("name" == k)
        || (jsTruthy c._parentId && jsNeEmpty c.name) && ("_parentId" == k)
        || (jsTruthy c.identifier && jsNeEmpty c.name) && ("identifier" == k)) := by
  simp only [updatePayload, Doc.hasKey, List.any_append]
  by_cases h1 : (jsTruthy c.name && jsNeEmpty c.name) = true <;>
    by_cases h2 : (jsTruthy c._parentId && jsNeEmpty c.name) = true <;>
      by_cases h3 : (jsTruthy c.identifier && jsNeEmpty c.name) = true <;>
        simp [h1, h2, h3]

/-- Claim C1: a field enters the update payload exactly when that field is
truthy and `command.name !== ''` holds; in particular, for any command with
`name = ""` and `identifier = "prod-v2"`, the payload is empty, so neither
the identifier nor the parent-id update is included. -/
theorem claim_C1_name_coupled_inclusion (c : UpdateEnvironmentCommand) :
    ((updatePayload c).hasKey "name" = (jsTruthy c.name && jsNeEmpty c.name))
    ∧ ((updatePayload c).hasKey "_parentId" = (jsTruthy c._parentId && jsNeEmpty c.name))
    ∧ ((updatePayload c).hasKey "identifier" = (jsTruthy c.identifier && jsNeEmpty c.name))
    ∧ (∀ i o u p, updatePayload ⟨i, o, u, some "", some "prod-v2", p⟩ = []) := by
  refine ⟨?_, ?_, ?_, ?_⟩
  · rw [updatePayload_hasKey]; simp
  · rw [updatePayload_hasKey]; simp
  · rw [updatePayload_hasKey]; simp
  · intro i o u p
    simp [updatePayload, jsTruthy, jsNeEmpty]

/-- Claim C2: the filter of the single store update issued by
`UpdateEnvironment.execute` is exactly `{ _id: command._id }`: it has only
the `_id` key and in particular never the organization id. -/
theorem claim_C2_filter_only_env_id {ε ρ : Type}
    (store : Doc → UpdateQuery → Except ε ρ) (c : UpdateEnvironmentCommand) :
    (runRepo store (UpdateEnvironment.execute c)).2
        = [([("_id", c._id)], ⟨updatePayload c⟩)]
    ∧ (∀ call ∈ (runRepo store (UpdateEnvironment.execute c)).2,
        call.1.hasKey "organizationId" = false
          ∧ call.1.map Prod.fst = ["_id"]) := by
  have hlog : (runRepo store (UpdateEnvironment.execute c)).2
      = [([("_id", c._id)], ⟨updatePayload c⟩)] := by
    unfold UpdateEnvironment.execute
    cases h : store [("_id", c._id)] ⟨updatePayload c⟩ <;> simp [runRepo, h]
  refine ⟨hlog, ?_⟩
  intro call hcall
  rw [hlog] at hcall
  simp only [List.mem_singleton] at hcall
  subst hcall
  constructor
  · simp [Doc.hasKey]
  · simp

/-- Claim C3: a field whose command value is absent (`none`) or the empty
string is never a key of the `$set` payload. -/
theorem claim_C3_absent_or_empty_not_written (c : UpdateEnvironmentCommand) :
    ((c.name = none ∨ c.name = some "") → (updatePayload c).hasKey "name" = false)
    ∧ ((c._parentId = none ∨ c._parentId = some "") →
        (updatePayload c).hasKey "_parentId" = false)
    ∧ ((c.identifier = none ∨ c.identifier = some "") →
        (updatePayload c).hasKey "identifier" = false) := by
  refine ⟨?_, ?_, ?_⟩
  · intro h
    rw [updatePayload_hasKey]
    rcases h with h | h <;> simp [h, jsTruthy]
  · intro h
    rw [updatePayload_hasKey]
    rcases h with h | h <;> simp [h, jsTruthy]
  · intro h
    rw [updatePayload_hasKey]
    rcases h with h | h <;> simp [h, jsTruthy]

/-- Witness for C3 at a concrete command with `name` absent, `_parentId`
absent and `identifier = ""`: none of the three keys is written. -/
theorem claim_C3_witness :
    (updatePayload ⟨"env1", "org1", "user1", none, some "", none⟩).hasKey "name" = false
    ∧ (updatePayload ⟨"env1", "org1", "user1", none, some "", none⟩).hasKey "_parentId" = false
    ∧ (updatePayload ⟨"env1", "org1", "user1", none, some "", none⟩).hasKey "identifier" = false :=
  ⟨(claim_C3_absent_or_empty_not_written ⟨"env1", "org1", "user1", none, some "", none⟩).1
      (Or.inl rfl),
    (claim_C3_absent_or_empty_not_written ⟨"env1", "org1", "user1", none, some "", none⟩).2.1
      (Or.inl rfl),
    (claim_C3_absent_or_empty_not_written ⟨"env1", "org1", "user1", none, some "", none⟩).2.2
      (Or.inr rfl)⟩

/-- Claim C4: `UpdateEnvironment.execute` issues exactly one store update
(no retry or compensating call), and if that store call fails with an error,
the very same error is the result of `execute`. -/
theorem claim_C4_single_call_error_passthrough {ε ρ : Type}
    (store : Doc → UpdateQuery → Except ε ρ) (c : UpdateEnvironmentCommand) :
    (runRepo store (UpdateEnvironment.execute c)).2.length = 1
    ∧ (∀ e : ε, store [("_id", c._id)] ⟨updatePayload c⟩ = Except.error e →
        (runRepo store (UpdateEnvironment.execute c)).1 = Except.error e) := by
  constructor
  · unfold UpdateEnvironment.execute
    cases h : store [("_id", c._id)] ⟨updatePayload c⟩ <;> simp [runRepo, h]
  · intro e he
    unfold UpdateEnvironment.execute
    simp [runRepo, he]

/-- Witness for C4 at a concrete command and a store that always rejects:
the error comes back unchanged and exactly one call was issued. -/
theorem claim_C4_witness :
    (runRepo (fun _ _ => (Except.error "boom" : Except String Nat))
        (UpdateEnvironment.execute ⟨"env1", "org1", "user1", some "Prod", none, none⟩)).1
      = Except.error "boom"
    ∧ (runRepo (fun _ _ => (Except.error "boom" : Except String Nat))
        (UpdateEnvironment.execute ⟨"env1", "org1", "user1", some "Prod", none, none⟩)).2.length
      = 1 :=
  ⟨(claim_C4_single_call_error_passthrough (fun _ _ => Except.error "boom")
      ⟨"env1", "org1", "user1", some "Prod", none, none⟩).2 "boom" rfl,
    (claim_C4_single_call_error_passthrough (fun _ _ => Except.error "boom")
      ⟨"env1", "org1", "user1", some "Prod", none, none⟩).1⟩

/-- Claim C5: the regenerate-api-keys handler constructs exactly the same
command as the get-api-keys handler for the same session, and each handler
passes its command to its use-case unchanged. -/
theorem claim_C5_same_command_shape (user : IJwtPayload) :
    EnvironmentsController.regenerateOrganizationApiKeysCommand user
        = EnvironmentsController.getOrganizationApiKeysCommand user
    ∧ (∀ (ρ : Type) (usecase : GetApiKeysCommand → ρ),
        EnvironmentsController.getOrganizationApiKeys usecase user
          = usecase (EnvironmentsController.getOrganizationApiKeysCommand user))
    ∧ (∀ (ρ : Type) (usecase : GetApiKeysCommand → ρ),
        EnvironmentsController.regenerateOrganizationApiKeys usecase user
          = usecase (EnvironmentsController.getOrganizationApiKeysCommand user)) :=
  ⟨rfl, fun _ _ => rfl, fun _ _ => rfl⟩

/-- Claim C6: the update-environment handler builds a command whose `_id` is
the path parameter, whose organizationId/userId come from the session, and
whose name/identifier/_parentId come from the body (parentId mapped to
_parentId), and it passes that command unchanged to the use-case. -/
theorem claim_C6_update_command_construction (user : IJwtPayload)
    (envId : String) (payload : UpdateEnvironmentRequestDto) :
    (EnvironmentsController.updateMyEnvironmentCommand user envId payload)._id = envId
    ∧ (EnvironmentsController.updateMyEnvironmentCommand user envId payload).organizationId
        = user.organizationId
    ∧ (EnvironmentsController.updateMyEnvironmentCommand user envId payload).userId = user._id
    ∧ (EnvironmentsController.updateMyEnvironmentCommand user envId payload).name = payload.name
    ∧ (EnvironmentsController.updateMyEnvironmentCommand user envId payload).identifier
        = payload.identifier
    ∧ (EnvironmentsController.updateMyEnvironmentCommand user envId payload)._parentId
        = payload.parentId
    ∧ (∀ (ρ : Type) (usecase : UpdateEnvironmentCommand → ρ),
        EnvironmentsController.updateMyEnvironment usecase user envId payload
          = usecase (EnvironmentsController.updateMyEnvironmentCommand user envId payload)) :=
  ⟨rfl, rfl, rfl, rfl, rfl, rfl, fun _ _ => rfl⟩

/-- Claim C7: the update-widget-settings handler builds a command whose
organizationId and environmentId come from the session, not the body, whose
encryption flag comes from the body, and returns the use-case's result on
that command. -/
theorem claim_C7_widget_settings_command (user : IJwtPayload)
    (body : UpdateWidgetSettingsRequestDto) :
    (EnvironmentsController.updateWidgetSettingsCommand user body).organizationId
        = user.organizationId
    ∧ (EnvironmentsController.updateWidgetSettingsCommand user body).environmentId
        = user.environmentId
    ∧ (EnvironmentsController.updateWidgetSettingsCommand user body).notificationCenterEncryption
        = body.notificationCenterEncryption
    ∧ (∀ (ρ : Type) (usecase : UpdateWidgetSettingsCommand → ρ),
        EnvironmentsController.updateWidgetSettings usecase user body
          = usecase (EnvironmentsController.updateWidgetSettingsCommand user body)) :=
  ⟨rfl, rfl, rfl, fun _ _ => rfl⟩

/-- Claim C8: `UpdateEnvironment.execute` returns exactly what the store's
update operation returns for its filter and `$set` payload, without
transformation or wrapping, for success and error alike. -/
theorem claim_C8_returns_store_result {ε ρ : Type}
    (store : Doc → UpdateQuery → Except ε ρ) (c : UpdateEnvironmentCommand) :
    (runRepo store (UpdateEnvironment.execute c)).1
      = store [("_id", c._id)] ⟨updatePayload c⟩ := by
  unfold UpdateEnvironment.execute
  cases h : store [("_id", c._id)] ⟨updatePayload c⟩ <;> simp [runRepo, h]

/-- Claim C9: when `name` is absent (`none`) the JS guard `command.name !== ''`
holds, so a truthy identifier and a truthy parent-id ARE included in the
payload: the coupling only suppresses them when `name` is explicitly `""`. -/
theorem claim_C9_absent_name_lets_fields_through (c : UpdateEnvironmentCommand)
    (h : c.name = none) :
    jsNeEmpty c.name = true
    ∧ (jsTruthy c.identifier = true → (updatePayload c).hasKey "identifier" = true)
    ∧ (jsTruthy c._parentId = true → (updatePayload c).hasKey "_parentId" = true) := by
  refine ⟨by simp [h, jsNeEmpty], ?_, ?_⟩
  · intro hi
    rw [updatePayload_hasKey]
    simp [h, jsNeEmpty, hi]
  · intro hp
    rw [updatePayload_hasKey]
    simp [h, jsNeEmpty, hp]

/-- Witness for C9 at a concrete command with `name` absent and truthy
identifier and parent-id: both keys are included in the payload. -/
theorem claim_C9_witness :
    (updatePayload ⟨"env1", "org1", "user1", none, some "prod-v2", some "parent1"⟩).hasKey
        "identifier" = true
    ∧ (updatePayload ⟨"env1", "org1", "user1", none, some "prod-v2", some "parent1"⟩).hasKey
        "_parentId" = true :=
  ⟨(claim_C9_absent_name_lets_fields_through
      ⟨"env1", "org1", "user1", none, some "prod-v2", some "parent1"⟩ rfl).2.1 (by decide),
    (claim_C9_absent_name_lets_fields_through
      ⟨"env1", "org1", "user1", none, some "prod-v2", some "parent1"⟩ rfl).2.2 (by decide)⟩

/-- Claim C10: every key of the `$set` payload is one of `name`, `_parentId`,
`identifier`; in particular `_id`, `organizationId` and `userId` are never
written. -/
theorem claim_C10_payload_key_frame (c : UpdateEnvironmentCommand) :
    ((updatePayload c).all fun kv =>
        kv.fst == "name" || kv.fst == "_parentId" || kv.fst == "identifier") = true
    ∧ (updatePayload c).hasKey "_id" = false
    ∧ (updatePayload c).hasKey "organizationId" = false
    ∧ (updatePayload c).hasKey "userId" = false := by
  refine ⟨?_, ?_, ?_, ?_⟩
  · simp only [updatePayload, List.all_append]
    by_cases h1 : (jsTruthy c.name && jsNeEmpty c.name) = true <;>
      by_cases h2 : (jsTruthy c._parentId && jsNeEmpty c.name) = true <;>
        by_cases h3 : (jsTruthy c.identifier && jsNeEmpty c.name) = true <;>
          simp [h1, h2, h3]
  · rw [updatePayload_hasKey]; simp
  · rw [updatePayload_hasKey]; simp
  · rw [updatePayload_hasKey]; simp

/-- Witness for C2 at a concrete store and command: the one issued call has
a filter whose only key is `_id` and which lacks `organizationId`. -/
theorem claim_C2_witness :
    (Doc.hasKey [("_id", "env1")] "organizationId" = false)
    ∧ ([("_id", "env1")] : Doc).map Prod.fst = ["_id"] :=
  (claim_C2_filter_only_env_id (fun _ _ => (Except.ok 0 : Except String Nat))
      ⟨"env1", "org1", "user1", some "Prod", none, none⟩).2
    ([("_id", "env1")],
      ⟨updatePayload ⟨"env1", "org1", "user1", some "Prod", none, none⟩⟩)
    (by decide)
